import Mathlib

/-!
Shallow embedding of the deployment-orchestration server of the
aws-builder-app repository (`src/server/routes/aws.js`, deployment router).

The embedding models:
* the ECR create-repository route (idempotent repository setup),
* the paginated logs route and the status-snapshot route, including the
  JavaScript coercion semantics of `offset + parseInt(limit)` on query
  strings,
* `executeTerraform` (stream events, the "already exists" exit-code-1
  tolerance in the close handler),
* `processDeployment` (the ten-stage pipeline, its skip logic for prebuilt
  ECR images, destroy mode, failure handling) together with the `/start`
  route's catch handler and the `/cancel/:deploymentId` route.

External collaborators (git, docker, axios-called internal endpoints, the
terraform binary) are modelled by an `Oracle` supplying their observable
outcomes; everything the route code itself does is translated directly.
-/

namespace AwsBuilder

/-- One log entry as pushed by `addLog` (timestamp omitted; it carries no
information the claims mention). -/
structure LogEntry where
  message : String
  level : String
  stepId : Option String
deriving DecidableEq, Repr

/-- Per-stage status strings used by `updateStep`. -/
inductive StepStatus where
  | pending
  | running
  | completed
  | failed
  | skipped
deriving DecidableEq, Repr

/-- One entry of `deployment.steps`. -/
structure Step where
  id : String
  name : String
  status : StepStatus
  message : String := ""
deriving DecidableEq, Repr

/-- Socket events emitted to the `deployment-<id>` room. -/
inductive Event where
  /-- `step-update` emitted by `updateStep`. -/
  | stepUpdate (stepId : String) (status : StepStatus) (message : String)
  /-- `deployment-log`; `addLog` sends `{message, level, stepId}`,
  `executeTerraform` and `importExistingResources` send `{message, type}`. -/
  | deploymentLog (message : String) (level : Option String)
      (stepId : Option String) (kind : Option String)
  /-- `realTimeLog` emitted by `addLog` for compatibility. -/
  | realTimeLog (message : String) (level : String) (stepId : Option String)
  /-- `deployment-completed`. -/
  | deploymentCompleted (deploymentUrl : Option String) (isDestroy : Bool)
  /-- `deployment-failed` emitted by the `/start` and `/destroy` catch
  handlers. -/
  | deploymentFailed (error : String)
  /-- `deployment-cancelled` emitted by the `/cancel` route. -/
  | deploymentCancelled
deriving DecidableEq, Repr

/-- JavaScript `String.prototype.trim`: strip whitespace from both ends
(structurally recursive so that proofs can evaluate it). -/
def jsTrim (s : String) : String :=
  ⟨((s.toList.dropWhile Char.isWhitespace).reverse.dropWhile
    Char.isWhitespace).reverse⟩

/-- JavaScript `String.prototype.includes`: substring occurrence. -/
def strIncludes (hay pat : String) : Bool :=
  hay.toList.tails.any (fun t => pat.toList.isPrefixOf t)

/-- Decimal accumulation over the characters of a digit string. -/
def strToNatAux : Nat → List Char → Nat
  | n, [] => n
  | n, c :: rest => strToNatAux (n * 10 + (c.toNat - 48)) rest

/-- Decimal value of a digit string — the common value of JavaScript
`parseInt` and `ToNumber` on the all-digits strings the routes receive. -/
def strToNat (s : String) : Nat :=
  strToNatAux 0 s.toList

/-- JavaScript `Array.prototype.slice(start, end)` for non-negative
indices. -/
def jsSlice (l : List α) (start stop : Nat) : List α :=
  (l.take stop).drop start

/-- JavaScript `Array.prototype.slice(-n)`: the suffix of length at most
`n`. -/
def jsSliceLast (n : Nat) (l : List α) : List α :=
  l.drop (l.length - n)

/-! ### ECR create-repository route (`router.post('/ecr/create-repository')`) -/

/-- An ECR repository description as returned by the AWS API. -/
structure EcrRepo where
  repositoryName : String
  repositoryUri : String
deriving DecidableEq, Repr

/-- The registry state visible to the route: the set of existing
repositories, as a list. -/
abbrev EcrState := List EcrRepo

/-- `DescribeRepositoriesCommand` for a single name: the existing
repository when present. -/
def describeRepositories (st : EcrState) (name : String) : Option EcrRepo :=
  st.find? (fun r => r.repositoryName == name)

/-- `CreateRepositoryCommand`: registers a fresh repository (its URI is
assigned by AWS; modelled as a function of the name). -/
def createRepository (st : EcrState) (name : String) : EcrRepo × EcrState :=
  let r : EcrRepo := ⟨name, "dkr.ecr.amazonaws.com/" ++ name⟩
  (r, st ++ [r])

/-- Response body of the create-repository route. -/
structure EcrCreateResponse where
  success : Bool
  repository : EcrRepo
  existed : Bool
deriving DecidableEq, Repr

/-- The `/ecr/create-repository` handler: describe first; if the
repository exists answer `existed := true` with the existing description
and do not create; otherwise create it and answer `existed := false`. -/
def createRepositoryRoute (st : EcrState) (name : String) :
    EcrCreateResponse × EcrState :=
  match describeRepositories st name with
  | some r => (⟨true, r, true⟩, st)
  | none =>
      let (r, st') := createRepository st name
      (⟨true, r, false⟩, st')

/-! ### Logs pagination route (`router.get('/logs/:deploymentId')`) and
status route (`router.get('/status/:deploymentId')`)

`req.query` delivers present parameters as strings; absent parameters take
the numeric defaults `100` and `0` from the destructuring. The handler
computes `deployment.logs.slice(offset, offset + parseInt(limit))`: when
`offset` is a (string) query parameter, JavaScript `+` concatenates it
with the decimal rendering of `parseInt(limit)` and `slice` then coerces
that string back to a number. -/

/-- Response of the logs route: the sliced entries and the total count. -/
structure LogsResponse where
  logs : List LogEntry
  total : Nat
deriving DecidableEq, Repr

/-- The `/logs/:deploymentId` handler body on a stored log list, for
digit-string query parameters (`none` = parameter absent). -/
def logsRoute (logs : List LogEntry) (offsetQ limitQ : Option String) :
    LogsResponse :=
  let limitNum : Nat :=
    match limitQ with
    | none => 100
    | some s => strToNat s
  match offsetQ with
  | none => ⟨jsSlice logs 0 (0 + limitNum), logs.length⟩
  | some s => ⟨jsSlice logs (strToNat s) (strToNat (s ++ toString limitNum)), logs.length⟩

/-- The `logs` field of the `/status/:deploymentId` response:
`deployment.logs.slice(-50)`. -/
def statusLogs (logs : List LogEntry) : List LogEntry :=
  jsSliceLast 50 logs

/-! ### `executeTerraform`

A terraform invocation is observed through the chunks its stdout/stderr
handlers receive and its exit code. The close handler resolves on exit
code 0, or on exit code 1 when the accumulated stderr contains
`"already exists"` — for every subcommand, since the check sits in the
shared close handler. -/

/-- One data chunk delivered to a child process stream handler. -/
inductive Chunk where
  | out (s : String)
  | err (s : String)
deriving DecidableEq, Repr

/-- Observable behaviour of one spawned process. -/
structure ProcResult where
  chunks : List Chunk
  exitCode : Nat
deriving DecidableEq, Repr

/-- Accumulated `stdout` of a process (`stdout += output`). -/
def stdoutAll (p : ProcResult) : String :=
  String.join (p.chunks.filterMap fun c =>
    match c with
    | .out s => some s
    | .err _ => none)

/-- Accumulated `stderr` of a process (`stderr += output`). -/
def stderrAll (p : ProcResult) : String :=
  String.join (p.chunks.filterMap fun c =>
    match c with
    | .out _ => none
    | .err s => some s)

/-- The `deployment-log` event `executeTerraform` emits for one chunk:
stdout chunks are tagged `terraform`; stderr chunks containing an
"already exists" signature are rewrapped as `terraform-info`, the rest
tagged `terraform-error`. -/
def terraformChunkEvent (c : Chunk) : Event :=
  match c with
  | .out s => .deploymentLog (jsTrim s) none none (some "terraform")
  | .err s =>
      if strIncludes s "already exists" || strIncludes s "AlreadyExists" then
        .deploymentLog ("Resource exists, continuing: " ++ jsTrim s) none none
          (some "terraform-info")
      else
        .deploymentLog (jsTrim s) none none (some "terraform-error")

/-- The three hardcoded import commands of `importExistingResources`. -/
def importCommandList : List String :=
  ["terraform import \"module.database[0].aws_db_subnet_group.main\" \"ai-interview-back-dev-db-subnet-group\" || true",
   "terraform import \"module.eks.aws_iam_role.eks_cluster\" \"ai-interview-back-dev-eks-cluster-role\" || true",
   "terraform import \"module.eks.aws_iam_role.eks_node_group\" \"ai-interview-back-dev-eks-node-group-role\" || true"]

/-- Events emitted by `importExistingResources` (each import command is
logged; the bash child processes always resolve and errors are ignored). -/
def importExistingResourcesEvents : List Event :=
  importCommandList.map fun c =>
    .deploymentLog ("Importing: " ++ c) none none (some "terraform-import")

/-- The `{stdout, stderr, code}` value `executeTerraform` resolves with. -/
structure TfResult where
  stdout : String
  stderr : String
  code : Nat
deriving DecidableEq, Repr

/-- The `deployment-log` events one `executeTerraform` call emits: the
pre-import logs (for `apply -auto-approve` only) followed by one event
per stream chunk. -/
def tfStreamEvents (command : String) (args : List String)
    (p : ProcResult) : List Event :=
  (if command == "apply" && args.contains "-auto-approve" then
    importExistingResourcesEvents
  else []) ++ p.chunks.map terraformChunkEvent

/-- The close handler of `executeTerraform`: resolve when
`code === 0 || (code === 1 && stderr.includes('already exists'))`,
reject otherwise. -/
def tfOutcome (command : String) (p : ProcResult) : Except String TfResult :=
  if p.exitCode == 0 ||
      (p.exitCode == 1 && strIncludes (stderrAll p) "already exists") then
    .ok ⟨stdoutAll p, stderrAll p, 0⟩
  else
    .error ("Terraform " ++ command ++ " failed with exit code " ++
      toString p.exitCode ++ ": " ++ stderrAll p)

/-- `executeTerraform(command, args, ...)`: the emitted events and the
promise outcome. -/
def executeTerraform (command : String) (args : List String)
    (p : ProcResult) : List Event × Except String TfResult :=
  (tfStreamEvents command args p, tfOutcome command p)

/-! ### The deployment pipeline (`processDeployment` and its routes) -/

/-- The `repository` part of a deployment request. -/
structure RepositoryCfg where
  url : String
  ecrImageUri : Option String := none
  accessToken : Option String := none
  imageTag : Option String := none
  ecrRepositoryName : Option String := none
deriving DecidableEq, Repr

/-- The parts of `deployment.config` the pipeline control flow reads. -/
structure DeployConfig where
  repository : RepositoryCfg
  projectName : String
  environment : String
  destroy_mode : Bool := false
deriving DecidableEq, Repr

/-- One workflow record of the `activeDeployments` map. -/
structure Deployment where
  status : String
  steps : List Step
  config : DeployConfig
  logs : List LogEntry
  error : Option String := none
  repositoryPath : Option String := none
  imageName : Option String := none
  ecrImageUri : Option String := none
  terraformOutputs : Option (Option String) := none
  deploymentUrl : Option String := none
deriving DecidableEq, Repr

/-- `updateStep`: rewrite the (first) step with the given id and emit the
`step-update` event; the event is emitted whether or not the step
exists. -/
def updateSteps : List Step → String → StepStatus → String → List Step
  | [], _, _, _ => []
  | s :: rest, stepId, st, msg =>
      if s.id == stepId then { s with status := st, message := msg } :: rest
      else s :: updateSteps rest stepId st msg

/-- `updateStep` on a deployment, returning the emitted event. -/
def updateStepD (d : Deployment) (stepId : String) (st : StepStatus)
    (msg : String) : Deployment × Event :=
  ({ d with steps := updateSteps d.steps stepId st msg },
   .stepUpdate stepId st msg)

/-- `addLog`: push the entry onto `deployment.logs` and emit the pair of
`deployment-log` and `realTimeLog` events. -/
def addLogD (d : Deployment) (message level : String)
    (stepId : Option String) : Deployment × List Event :=
  ({ d with logs := d.logs ++ [⟨message, level, stepId⟩] },
   [.deploymentLog message (some level) stepId none,
    .realTimeLog message level stepId])

/-- Result of one pipeline block: the mutated deployment, the events it
emitted, and the error it threw, if any. -/
structure PhaseRes where
  d : Deployment
  t : List Event
  err : Option String
deriving DecidableEq, Repr

/-- Outcomes of the external collaborators one pipeline run touches. -/
structure Oracle where
  /-- The `git clone` child process. -/
  gitRes : ProcResult
  /-- The `tmp.dirSync` name used for the clone. -/
  workDirRepo : String
  /-- Whether `fs.access(Dockerfile)` succeeds. -/
  dockerfileOk : Bool
  /-- Whether the internal `/api/deployment/build-image` call answers
  `success: true`. -/
  buildOk : Bool
  /-- Whether the internal `/api/ecr/create-repository` call answers
  `success: true`. -/
  ecrOk : Bool
  /-- `repository.repositoryUri` of that answer. -/
  ecrRepositoryUri : String
  /-- Whether the internal `/api/aws/ecr/auth-token` call answers
  `success: true`. -/
  authOk : Bool
  /-- Whether the internal `/api/deployment/push-to-ecr` call answers
  `success: true`. -/
  pushOk : Bool
  /-- The ECR registry host (after stripping `https://`). -/
  registry : String
  /-- The `tmp.dirSync` name used as terraform working directory. -/
  workDirTf : String
  initRes : ProcResult
  planRes : ProcResult
  applyRes : ProcResult
  outputRes : ProcResult
  /-- `JSON.parse(outputResult.stdout)`: `none` when parsing throws,
  otherwise the optional `application_url.value` of the outputs. -/
  outputParse : Option (Option String)
deriving DecidableEq, Repr

/-- Running state while a pipeline block executes: the deployment record
and the events emitted so far. -/
abbrev PState := Deployment × List Event

/-- `updateStep` call on the running state. -/
def pUpd (s : PState) (stepId : String) (st : StepStatus) (msg : String) :
    PState :=
  let (d, e) := updateStepD s.1 stepId st msg
  (d, s.2 ++ [e])

/-- `addLog` call on the running state. -/
def pLog (s : PState) (msg lvl : String) (stepId : Option String) : PState :=
  let (d, es) := addLogD s.1 msg lvl stepId
  (d, s.2 ++ es)

/-- Events emitted straight to the socket room (terraform stream output)
without touching the deployment record. -/
def pEvs (s : PState) (evs : List Event) : PState :=
  (s.1, s.2 ++ evs)

/-- Field mutation on the deployment record. -/
def pMod (s : PState) (f : Deployment → Deployment) : PState :=
  (f s.1, s.2)

/-- Success of a pipeline block. -/
def pOk (s : PState) : PhaseRes := ⟨s.1, s.2, none⟩

/-- A thrown error ending a pipeline block. -/
def pThrow (s : PState) (msg : String) : PhaseRes := ⟨s.1, s.2, some msg⟩

/-- The per-chunk `addLog` calls of the git clone handlers: stdout chunks
logged at `info`, stderr chunks at `warning`, both prefixed `Git: `. -/
def gitChunkLogs : List Chunk → PState → PState
  | [], s => s
  | c :: rest, s =>
      let s1 :=
        match c with
        | .out str => pLog s ("Git: " ++ jsTrim str) "info" (some "clone")
        | .err str => pLog s ("Git: " ++ jsTrim str) "warning" (some "clone")
      gitChunkLogs rest s1

/-- Step 1 of `processDeployment`: clone the repository, or mark the
stage `completed` with a skip message when `repository.ecrImageUri` is
supplied. -/
def clonePhase (o : Oracle) (d : Deployment) : PhaseRes :=
  match d.config.repository.ecrImageUri with
  | some uri =>
      let s := pUpd (d, []) "clone" .completed
        "Skipping clone - using pre-built image"
      let s := pLog s ("Using pre-built ECR image: " ++ uri) "success"
        (some "clone")
      let s := pLog s "Repository clone skipped - image already built and pushed"
        "info" (some "clone")
      pOk s
  | none =>
      let s := pUpd (d, []) "clone" .running "Cloning repository..."
      let s := pLog s ("Cloning repository: " ++ d.config.repository.url)
        "info" (some "clone")
      let s := pMod s fun d => { d with repositoryPath := some o.workDirRepo }
      let s :=
        match d.config.repository.accessToken with
        | some _ =>
            if strIncludes d.config.repository.url "github.com" then
              pLog s "Using GitHub access token for authentication" "info"
                (some "clone")
            else s
        | none => s
      let s := gitChunkLogs o.gitRes.chunks s
      if o.gitRes.exitCode == 0 then
        let s := pUpd s "clone" .completed "Repository cloned successfully"
        let s := pLog s ("Repository cloned to: " ++ o.workDirRepo) "success"
          (some "clone")
        pOk s
      else
        let msg := "Git clone failed with code " ++ toString o.gitRes.exitCode
          ++ ": " ++ stderrAll o.gitRes
        let s := pLog s ("Repository clone failed: " ++ msg) "error"
          (some "clone")
        pThrow s msg

/-- Steps 2–4 of `processDeployment`: with a prebuilt image, mark
`build`/`ecr-setup`/`push` `completed` with skip messages; otherwise run
the docker build, the ECR repository setup and the ECR push through the
internal endpoints, throwing on the first failure. -/
def buildPushPhase (o : Oracle) (d : Deployment) : PhaseRes :=
  match d.config.repository.ecrImageUri with
  | some uri =>
      let s := pUpd (d, []) "build" .completed "Using pre-built Docker image"
      let s := pUpd s "ecr-setup" .completed "Using existing ECR repository"
      let s := pUpd s "push" .completed "Using pre-pushed ECR image"
      let s := pMod s fun d => { d with ecrImageUri := some uri }
      let s := pLog s ("Using pre-built ECR image: " ++ uri) "info" none
      let s := pLog s "Skipping Docker build and ECR push - image already available"
        "info" none
      pOk s
  | none =>
      let tag := d.config.repository.imageTag.getD "latest"
      let repoName := d.config.repository.ecrRepositoryName.getD
        d.config.projectName
      let s := pUpd (d, []) "build" .running "Building Docker image..."
      let s := pLog s "Building Docker image from repository" "info" none
      if s.1.repositoryPath.isNone then
        let msg := "Repository path not available - clone step may have failed"
        let s := pLog s ("Docker image build failed: " ++ msg) "error" none
        pThrow s msg
      else if !o.dockerfileOk then
        let msg := "Dockerfile not found in repository root"
        let s := pLog s ("Docker image build failed: " ++ msg) "error" none
        pThrow s msg
      else
        let s := pLog s "Dockerfile found in repository" "info" none
        if !o.buildOk then
          let msg := "Image build failed"
          let s := pLog s ("Docker image build failed: " ++ msg) "error" none
          pThrow s msg
        else
          let imageName := d.config.projectName ++ ":" ++ tag
          let s := pMod s fun d => { d with imageName := some imageName }
          let s := pUpd s "build" .completed "Docker image built successfully"
          let s := pLog s ("Docker image built: " ++ imageName) "info" none
          let s := pUpd s "ecr-setup" .running "Setting up ECR repository..."
          let s := pLog s "Creating ECR repository if not exists" "info" none
          if !o.ecrOk then
            let msg := "ECR repository setup failed"
            let s := pLog s ("ECR repository setup failed: " ++ msg) "error" none
            pThrow s msg
          else
            let s := pUpd s "ecr-setup" .completed "ECR repository ready"
            let s := pLog s ("ECR repository ready: " ++ o.ecrRepositoryUri)
              "info" none
            let s := pUpd s "push" .running "Pushing image to ECR..."
            let s := pLog s "Pushing Docker image to ECR" "info" none
            if !o.authOk then
              let msg := "Failed to get ECR auth token"
              let s := pLog s ("ECR push failed: " ++ msg) "error" none
              pThrow s msg
            else if !o.pushOk then
              let msg := "ECR push failed"
              let s := pLog s ("ECR push failed: " ++ msg) "error" none
              pThrow s msg
            else
              let uri := o.registry ++ "/" ++ repoName ++ ":" ++ tag
              let s := pMod s fun d => { d with ecrImageUri := some uri }
              let s := pUpd s "push" .completed
                "Image pushed to ECR successfully"
              let s := pLog s ("Image pushed to ECR: " ++ uri) "info" none
              pOk s

/-- Step 5 of `processDeployment`: working-directory setup logs and
`terraform init`. -/
def tfInitPhase (o : Oracle) (d : Deployment) : PhaseRes :=
  let s := pUpd (d, []) "terraform-init" .running "Initializing Terraform..."
  let s := pLog s "Setting up Terraform configuration" "info" none
  let s := pLog s ("Created Terraform working directory: " ++ o.workDirTf)
    "info" none
  let s := pLog s "Copied Terraform templates" "info" none
  let s := pLog s "Generated Terraform variables" "info" none
  let s := pLog s "Generated backend configuration" "info" none
  let tf := executeTerraform "init" ["-backend-config=backend.hcl"] o.initRes
  let s := pEvs s tf.1
  match tf.2 with
  | .ok _ =>
      let s := pUpd s "terraform-init" .completed "Terraform initialized"
      let s := pLog s "Terraform initialization completed successfully"
        "info" none
      pOk s
  | .error e =>
      let s := pLog s ("Terraform initialization failed: " ++ e) "error" none
      pThrow s e

/-- Step 6 of `processDeployment`: `terraform plan -out=tfplan`. -/
def tfPlanPhase (o : Oracle) (d : Deployment) : PhaseRes :=
  let s := pUpd (d, []) "terraform-plan" .running "Planning infrastructure..."
  let s := pLog s "Creating deployment plan for AWS resources" "info" none
  let tf := executeTerraform "plan" ["-out=tfplan"] o.planRes
  let s := pEvs s tf.1
  match tf.2 with
  | .ok _ =>
      let s := pUpd s "terraform-plan" .completed "Infrastructure plan created"
      let s := pLog s "Terraform plan completed successfully" "info" none
      pOk s
  | .error e =>
      let s := pLog s ("Terraform planning failed: " ++ e) "error" none
      pThrow s e

/-- Step 7 of `processDeployment`: `terraform apply` (with the output
retrieval sub-step) or, in destroy mode, `terraform destroy`. -/
def applyPhase (o : Oracle) (d : Deployment) : PhaseRes :=
  if d.config.destroy_mode then
    let s := pUpd (d, []) "terraform-apply" .running
      "Destroying infrastructure..."
    let s := pLog s
      "Destroying EKS cluster and related resources - this may take 10-15 minutes"
      "info" none
    let tf := executeTerraform "destroy" ["-auto-approve"] o.applyRes
    let s := pEvs s tf.1
    match tf.2 with
    | .ok _ =>
        let s := pUpd s "terraform-apply" .completed
          "Infrastructure destroyed successfully"
        let s := pLog s
          "Terraform destroy completed successfully - AWS resources removed"
          "info" none
        pOk s
    | .error e =>
        let s := pLog s ("Infrastructure destruction failed: " ++ e)
          "error" none
        pThrow s e
  else
    let s := pUpd (d, []) "terraform-apply" .running
      "Deploying infrastructure..."
    let s := pLog s
      "Creating EKS cluster and related resources - this may take 10-15 minutes"
      "info" none
    let tf := executeTerraform "apply" ["-auto-approve", "tfplan"] o.applyRes
    let s := pEvs s tf.1
    match tf.2 with
    | .error e =>
        let s := pLog s ("Infrastructure deployment failed: " ++ e)
          "error" none
        pThrow s e
    | .ok _ =>
        let tfOut := executeTerraform "output" ["-json"] o.outputRes
        let s := pEvs s tfOut.1
        let s :=
          match tfOut.2, o.outputParse with
          | .ok _, some parsed =>
              let s := pMod s fun d =>
                { d with terraformOutputs := some parsed }
              pLog s "Retrieved Terraform outputs" "info" none
          | _, _ =>
              pLog s
                "Failed to parse terraform outputs, but deployment may have succeeded"
                "warn" none
        let s := pUpd s "terraform-apply" .completed
          "Infrastructure deployed successfully"
        let s := pLog s
          "Terraform apply completed successfully - AWS resources created"
          "info" none
        pOk s

/-- Steps 8–10 and the completion block of `processDeployment`: the
simulated kubectl/app-deploy/verify stages (skipped entirely in destroy
mode), the deployment URL, the terminal `completed` status and the
`deployment-completed` event. -/
def finishPhase (d : Deployment) : PhaseRes :=
  let isDestroy := d.config.destroy_mode
  let s : PState :=
    if isDestroy then (d, [])
    else
      let s := pUpd (d, []) "kubectl-config" .running "Configuring kubectl..."
      let s := pLog s "Setting up Kubernetes cluster access" "info" none
      let s := pUpd s "kubectl-config" .completed "kubectl configured"
      let s := pUpd s "deploy-app" .running "Deploying application..."
      let s := pLog s "Deploying application to EKS cluster" "info" none
      let s := pUpd s "deploy-app" .completed
        "Application deployed successfully"
      let s := pUpd s "verify" .running "Verifying deployment..."
      let s := pLog s "Checking application health and accessibility"
        "info" none
      let s := pUpd s "verify" .completed "Deployment verified successfully"
      pMod s fun d =>
        { d with deploymentUrl := some ((d.terraformOutputs.bind id).getD
            ("https://" ++ d.config.projectName ++ "-" ++
              d.config.environment ++ ".example.com")) }
  let s := pMod s fun d => { d with status := "completed" }
  let s := pLog s
    (if isDestroy then "Infrastructure destruction completed successfully!"
     else "Deployment completed successfully!") "info" none
  let s := pEvs s [.deploymentCompleted s.1.deploymentUrl isDestroy]
  pOk s

/-- The pipeline blocks of `processDeployment`, in source order. -/
def phases (o : Oracle) : List (Deployment → PhaseRes) :=
  [clonePhase o, buildPushPhase o, tfInitPhase o, tfPlanPhase o,
   applyPhase o, finishPhase]

/-- Sequential execution of pipeline blocks: a thrown error skips every
later block. -/
def runPhases : List (Deployment → PhaseRes) → Deployment → PhaseRes
  | [], d => ⟨d, [], none⟩
  | f :: fs, d =>
      let r := f d
      match r.err with
      | some e => ⟨r.d, r.t, some e⟩
      | none =>
          let r2 := runPhases fs r.d
          ⟨r2.d, r.t ++ r2.t, r2.err⟩

/-- `processDeployment`: set `status := 'running'`, run the pipeline,
and on a thrown error run the catch block (`status := 'failed'`, record
the error, append the `Deployment failed:` error log) and rethrow. -/
def processDeployment (o : Oracle) (d : Deployment) : PhaseRes :=
  let d0 := { d with status := "running" }
  let r := runPhases (phases o) d0
  match r.err with
  | none => r
  | some e =>
      let d1 := { r.d with status := "failed", error := some e }
      let (d2, evs) := addLogD d1 ("Deployment failed: " ++ e) "error" none
      ⟨d2, r.t ++ evs, some e⟩

/-- The `/start` route's asynchronous run: `processDeployment` plus the
route's `.catch` handler, which marks the deployment `failed`, records
the error and emits `deployment-failed`. -/
def startRun (o : Oracle) (d : Deployment) : Deployment × List Event :=
  let r := processDeployment o d
  match r.err with
  | none => (r.d, r.t)
  | some e =>
      ({ r.d with status := "failed", error := some e },
       r.t ++ [.deploymentFailed e])

/-- The `/cancel/:deploymentId` route on a stored deployment: set
`status := 'cancelled'` and emit `deployment-cancelled`. Nothing else is
touched — no OS process is terminated and no rollback is attempted. -/
def cancelRoute (d : Deployment) : Deployment × Event :=
  ({ d with status := "cancelled" }, .deploymentCancelled)

/-- A run of `/start` with a `/cancel` request served between pipeline
block `k` and block `k + 1` (the JavaScript event loop interleaves the
cancel route at an await point of `processDeployment`). -/
def startRunWithCancel (o : Oracle) (k : Nat) (d : Deployment) :
    Deployment × List Event :=
  let d0 := { d with status := "running" }
  let r1 := runPhases ((phases o).take k) d0
  match r1.err with
  | some e =>
      let d1 := { r1.d with status := "failed", error := some e }
      let (d2, evs) := addLogD d1 ("Deployment failed: " ++ e) "error" none
      ({ d2 with status := "failed" }, r1.t ++ evs ++ [.deploymentFailed e])
  | none =>
      let (dc, ec) := cancelRoute r1.d
      let r2 := runPhases ((phases o).drop k) dc
      match r2.err with
      | none => (r2.d, r1.t ++ [ec] ++ r2.t)
      | some e =>
          let d1 := { r2.d with status := "failed", error := some e }
          let (d2, evs) := addLogD d1 ("Deployment failed: " ++ e) "error" none
          ({ d2 with status := "failed" },
           r1.t ++ [ec] ++ r2.t ++ evs ++ [.deploymentFailed e])

/-- The step table created by the `/start` route. -/
def initialSteps : List Step :=
  [⟨"clone", "Clone Repository", .pending, ""⟩,
   ⟨"build", "Build Docker Image", .pending, ""⟩,
   ⟨"ecr-setup", "Setup ECR Repository", .pending, ""⟩,
   ⟨"push", "Push to ECR", .pending, ""⟩,
   ⟨"terraform-init", "Initialize Terraform", .pending, ""⟩,
   ⟨"terraform-plan", "Plan Infrastructure", .pending, ""⟩,
   ⟨"terraform-apply", "Deploy Infrastructure", .pending, ""⟩,
   ⟨"kubectl-config", "Configure kubectl", .pending, ""⟩,
   ⟨"deploy-app", "Deploy Application", .pending, ""⟩,
   ⟨"verify", "Verify Deployment", .pending, ""⟩]

/-- A deployment record as stored by the `/start` route, before
`processDeployment` begins. -/
def mkDeployment (cfg : DeployConfig) : Deployment :=
  { status := "initializing", steps := initialSteps, config := cfg,
    logs := [] }

/-- Status of the step with the given id. -/
def stepStatusOf (d : Deployment) (stepId : String) : Option StepStatus :=
  (d.steps.find? (fun s => s.id == stepId)).map (·.status)

/-! ### Classification of pipeline behaviour -/

/-- An event a pipeline block may emit when it owns the step ids `ids`:
any non-`step-update` event, or a `step-update` for one of its own ids
with status `running` or `completed` (the pipeline never writes any other
status). -/
def phaseEventOk (ids : List String) (e : Event) : Prop :=
  match e with
  | .stepUpdate stepId st _ => stepId ∈ ids ∧ (st = .running ∨ st = .completed)
  | _ => True

/-- No `step-update` event for any of the ids in `bad`. -/
def noStepUpdateFor (bad : List String) (e : Event) : Prop :=
  match e with
  | .stepUpdate stepId _ _ => stepId ∉ bad
  | _ => True

/-- Invariant relating a pipeline block's running state to the
deployment it started from: all events are classified by `phaseEventOk`,
every new log entry has a matching `deployment-log` event in the trace,
the status is unchanged (or set to `completed` by the finish block), the
config is unchanged, every step is an original one or carries a written
(`running`/`completed`) status, and steps outside `ids` are untouched. -/
def StateSpec (ids : List String) (d0 : Deployment) (s : PState) : Prop :=
  (∀ e ∈ s.2, phaseEventOk ids e) ∧
  (∀ le ∈ s.1.logs, le ∈ d0.logs ∨
    Event.deploymentLog le.message (some le.level) le.stepId none ∈ s.2) ∧
  (s.1.status = d0.status ∨ s.1.status = "completed") ∧
  (s.1.config = d0.config) ∧
  (∀ st ∈ s.1.steps,
    st ∈ d0.steps ∨ st.status = .running ∨ st.status = .completed) ∧
  (∀ sid : String, sid ∉ ids →
    s.1.steps.find? (fun x => x.id == sid) =
      d0.steps.find? (fun x => x.id == sid))

/-- `StateSpec` for a finished pipeline block. -/
abbrev PhaseSpec (ids : List String) (d0 : Deployment) (r : PhaseRes) :
    Prop :=
  StateSpec ids d0 (r.d, r.t)

/-- The ten step ids of the pipeline. -/
def allStepIds : List String :=
  ["clone", "build", "ecr-setup", "push", "terraform-init", "terraform-plan",
   "terraform-apply", "kubectl-config", "deploy-app", "verify"]

/-- The step ids a destroy-mode run may touch. -/
def destroyStepIds : List String :=
  ["clone", "build", "ecr-setup", "push", "terraform-init", "terraform-plan",
   "terraform-apply"]

/-! ### Concrete scenarios -/

/-- A request whose repository carries a prebuilt ECR image reference. -/
def cfgPrebuilt : DeployConfig :=
  { repository :=
      { url := "https://github.com/acme/app",
        ecrImageUri := some "123.dkr.ecr.us-east-1.amazonaws.com/app:latest" },
    projectName := "demo", environment := "dev" }

/-- A request with a plain git URL and no prebuilt image. -/
def cfgGit : DeployConfig :=
  { repository := { url := "https://github.com/acme/app" },
    projectName := "demo", environment := "dev" }

/-- The prebuilt request with `destroy_mode` set by the `/destroy`
route. -/
def cfgDestroy : DeployConfig :=
  { cfgPrebuilt with destroy_mode := true }

/-- Collaborator outcomes of a fully successful run. -/
def oracleOk : Oracle :=
  { gitRes := ⟨[Chunk.out "Cloning into repo"], 0⟩,
    workDirRepo := "/tmp/repo", dockerfileOk := true, buildOk := true,
    ecrOk := true,
    ecrRepositoryUri := "123.dkr.ecr.us-east-1.amazonaws.com/demo",
    authOk := true, pushOk := true,
    registry := "123.dkr.ecr.us-east-1.amazonaws.com",
    workDirTf := "/tmp/tf",
    initRes := ⟨[Chunk.out "Terraform has been initialized"], 0⟩,
    planRes := ⟨[Chunk.out "Plan: 5 to add"], 0⟩,
    applyRes := ⟨[Chunk.out "Apply complete"], 0⟩,
    outputRes := ⟨[Chunk.out "json outputs"], 0⟩,
    outputParse := some (some "https://app.example.com") }

/-- A run whose `terraform apply` exits 1 with an "already exists"
conflict on stderr. -/
def oracleApplyExists : Oracle :=
  { oracleOk with applyRes := ⟨[.err "Error: resource already exists"], 1⟩ }

/-- A run whose `terraform apply` exits 1 with an unrelated stderr
message. -/
def oracleApplyBad : Oracle :=
  { oracleOk with applyRes := ⟨[.err "Error: access denied"], 1⟩ }

/-- A run whose `git clone` exits 128. -/
def oracleCloneFail : Oracle :=
  { oracleOk with gitRes := ⟨[.err "fatal: repo not found"], 128⟩ }

/-- A run whose `terraform plan` exits 1 with an unrelated message. -/
def oraclePlanFail : Oracle :=
  { oracleOk with planRes := ⟨[.err "Error: invalid provider"], 1⟩ }

/-- 25 numbered log entries, for the pagination scenarios. -/
def sampleLogs : List LogEntry :=
  (List.range 25).map fun i => ⟨"L" ++ toString i, "info", none⟩

/-- The fixed event prefix a prebuilt-image run emits: the four skip
stages' updates and logs followed by the `terraform-init` running
update. -/
def prebuiltPrefix (uri : String) : List Event :=
  [.stepUpdate "clone" .completed "Skipping clone - using pre-built image",
   .deploymentLog ("Using pre-built ECR image: " ++ uri) (some "success")
     (some "clone") none,
   .realTimeLog ("Using pre-built ECR image: " ++ uri) "success" (some "clone"),
   .deploymentLog "Repository clone skipped - image already built and pushed"
     (some "info") (some "clone") none,
   .realTimeLog "Repository clone skipped - image already built and pushed"
     "info" (some "clone"),
   .stepUpdate "build" .completed "Using pre-built Docker image",
   .stepUpdate "ecr-setup" .completed "Using existing ECR repository",
   .stepUpdate "push" .completed "Using pre-pushed ECR image",
   .deploymentLog ("Using pre-built ECR image: " ++ uri) (some "info") none none,
   .realTimeLog ("Using pre-built ECR image: " ++ uri) "info" none,
   .deploymentLog "Skipping Docker build and ECR push - image already available"
     (some "info") none none,
   .realTimeLog "Skipping Docker build and ECR push - image already available"
     "info" none,
   .stepUpdate "terraform-init" .running "Initializing Terraform..."]

/-- The fully successful prebuilt-image run. -/
def normalPrebuiltRun : Deployment × List Event :=
  startRun oracleOk (mkDeployment cfgPrebuilt)

/-- The event count produced by the first `k` pipeline blocks of the
successful prebuilt-image run — the position at which a cancel served
between blocks `k` and `k + 1` lands in the stream. -/
def cancelCutLen (k : Nat) : Nat :=
  (runPhases ((phases oracleOk).take k)
    { mkDeployment cfgPrebuilt with status := "running" }).t.length

/-- The prebuilt-image run with a cancel served after the third pipeline
block (before `terraform-plan`). -/
def cancelRun3 : Deployment × List Event :=
  startRunWithCancel oracleOk 3 (mkDeployment cfgPrebuilt)

/-- The prebuilt-image run with a cancel served after the fourth pipeline
block (before `terraform-apply`). -/
def cancelRun4 : Deployment × List Event :=
  startRunWithCancel oracleOk 4 (mkDeployment cfgPrebuilt)

instance {α β : Type} [DecidableEq α] [DecidableEq β] :
    DecidableEq (Except α β) := fun
  | .ok a, .ok b => decidable_of_iff (a = b) (by simp)
  | .ok _, .error _ => isFalse (by simp)
  | .error _, .ok _ => isFalse (by simp)
  | .error a, .error b => decidable_of_iff (a = b) (by simp)

/-! ### Invariant lemmas for the pipeline blocks -/

theorem phaseEventOk_mono {ids ids' : List String} (h : ∀ x ∈ ids, x ∈ ids')
    {e : Event} (he : phaseEventOk ids e) : phaseEventOk ids' e := by
  rcases e with ⟨stepId, st, msg⟩ | _ | _ | _ | _ | _ <;>
    simp [phaseEventOk] at he ⊢
  exact ⟨h _ he.1, he.2⟩

theorem mem_updateSteps {steps : List Step} {stepId msg : String}
    {st : StepStatus} :
    ∀ x ∈ updateSteps steps stepId st msg, x ∈ steps ∨ x.status = st := by
  induction steps with
  | nil => intro x hx; simp [updateSteps] at hx
  | cons s rest ih =>
      intro x hx
      by_cases hb : s.id == stepId <;> simp [updateSteps, hb] at hx
      · rcases hx with rfl | hx
        · exact Or.inr rfl
        · exact Or.inl (List.mem_cons_of_mem _ hx)
      · rcases hx with rfl | hx
        · exact Or.inl (List.mem_cons_self _ _)
        · rcases ih x hx with h | h
          · exact Or.inl (List.mem_cons_of_mem _ h)
          · exact Or.inr h

theorem find?_updateSteps_ne {steps : List Step} {stepId sid msg : String}
    {st : StepStatus} (h : sid ≠ stepId) :
    (updateSteps steps stepId st msg).find? (fun x => x.id == sid) =
      steps.find? (fun x => x.id == sid) := by
  induction steps with
  | nil => rfl
  | cons s rest ih =>
      by_cases hb : s.id == stepId
      · have hid : s.id = stepId := eq_of_beq hb
        have hs : (s.id == sid) = false := by
          simp [hid]
          exact fun hc => h hc.symm
        simp [updateSteps, hb, List.find?, hs]
      · by_cases hs : s.id == sid <;>
          simp [updateSteps, hb, List.find?, hs, ih]

theorem stateSpec_init (ids : List String) (d : Deployment) :
    StateSpec ids d (d, []) := by
  refine ⟨by simp, fun le hle => Or.inl hle, Or.inl rfl, rfl,
    fun st hst => Or.inl hst, fun sid _ => rfl⟩

theorem stateSpec_upd {ids : List String} {d0 : Deployment} {s : PState}
    (h : StateSpec ids d0 s) {stepId msg : String} {st : StepStatus}
    (hid : stepId ∈ ids) (hst : st = .running ∨ st = .completed) :
    StateSpec ids d0 (pUpd s stepId st msg) := by
  obtain ⟨hev, hlog, hstat, hcfg, hsteps, hfind⟩ := h
  refine ⟨?_, ?_, hstat, hcfg, ?_, ?_⟩
  · intro e he
    simp only [pUpd, updateStepD, List.mem_append, List.mem_singleton] at he
    rcases he with he | rfl
    · exact hev e he
    · exact ⟨hid, hst⟩
  · intro le hle
    rcases hlog le hle with h' | h'
    · exact Or.inl h'
    · exact Or.inr (List.mem_append_left _ h')
  · intro x hx
    rcases mem_updateSteps x hx with h' | h'
    · exact hsteps x h'
    · rcases hst with rfl | rfl
      · exact Or.inr (Or.inl h')
      · exact Or.inr (Or.inr h')
  · intro sid hsid
    have hne : sid ≠ stepId := fun hc => hsid (hc ▸ hid)
    exact (find?_updateSteps_ne hne).trans (hfind sid hsid)

theorem stateSpec_log {ids : List String} {d0 : Deployment} {s : PState}
    (h : StateSpec ids d0 s) {msg lvl : String} {sid : Option String} :
    StateSpec ids d0 (pLog s msg lvl sid) := by
  obtain ⟨hev, hlog, hstat, hcfg, hsteps, hfind⟩ := h
  refine ⟨?_, ?_, hstat, hcfg, hsteps, hfind⟩
  · intro e he
    simp only [pLog, addLogD, List.mem_append, List.mem_cons,
      List.mem_singleton, List.not_mem_nil, or_false] at he
    rcases he with he | rfl | rfl
    · exact hev e he
    · trivial
    · trivial
  · intro le hle
    simp only [pLog, addLogD, List.mem_append, List.mem_singleton] at hle
    rcases hle with hle | rfl
    · rcases hlog le hle with h' | h'
      · exact Or.inl h'
      · exact Or.inr (List.mem_append_left _ h')
    · refine Or.inr (List.mem_append_right _ ?_)
      simp

theorem stateSpec_evs {ids : List String} {d0 : Deployment} {s : PState}
    (h : StateSpec ids d0 s) {evs : List Event}
    (hevs : ∀ e ∈ evs, phaseEventOk ids e) :
    StateSpec ids d0 (pEvs s evs) := by
  obtain ⟨hev, hlog, hstat, hcfg, hsteps, hfind⟩ := h
  refine ⟨?_, ?_, hstat, hcfg, hsteps, hfind⟩
  · intro e he
    rcases List.mem_append.1 he with he | he
    · exact hev e he
    · exact hevs e he
  · intro le hle
    rcases hlog le hle with h' | h'
    · exact Or.inl h'
    · exact Or.inr (List.mem_append_left _ h')

theorem stateSpec_mod {ids : List String} {d0 : Deployment} {s : PState}
    (h : StateSpec ids d0 s) {f : Deployment → Deployment}
    (hf : ∀ x, (f x).logs = x.logs ∧
      ((f x).status = x.status ∨ (f x).status = "completed") ∧
      (f x).config = x.config ∧ (f x).steps = x.steps) :
    StateSpec ids d0 (pMod s f) := by
  obtain ⟨hev, hlog, hstat, hcfg, hsteps, hfind⟩ := h
  obtain ⟨hfl, hfs, hfc, hfst⟩ := hf s.1
  refine ⟨hev, ?_, ?_, ?_, ?_, ?_⟩
  · intro le hle
    rw [show (pMod s f).1 = f s.1 from rfl, hfl] at hle
    exact hlog le hle
  · rcases hfs with h' | h'
    · rw [show (pMod s f).1 = f s.1 from rfl, h']
      exact hstat
    · exact Or.inr h'
  · rw [show (pMod s f).1 = f s.1 from rfl, hfc]
    exact hcfg
  · intro x hx
    rw [show (pMod s f).1 = f s.1 from rfl, hfst] at hx
    exact hsteps x hx
  · intro sid hsid
    rw [show (pMod s f).1 = f s.1 from rfl, hfst]
    exact hfind sid hsid

theorem stateSpec_git {ids : List String} {d0 : Deployment}
    (cs : List Chunk) {s : PState} (h : StateSpec ids d0 s) :
    StateSpec ids d0 (gitChunkLogs cs s) := by
  induction cs generalizing s with
  | nil => exact h
  | cons c rest ih =>
      rcases c with str | str <;> exact ih (stateSpec_log h)

theorem tfStreamEvents_ok (ids : List String) (c : String) (a : List String)
    (p : ProcResult) : ∀ e ∈ tfStreamEvents c a p, phaseEventOk ids e := by
  intro e he
  simp only [tfStreamEvents, List.mem_append] at he
  rcases he with he | he
  · split at he
    · simp [importExistingResourcesEvents, importCommandList] at he
      rcases he with rfl | rfl | rfl <;> trivial
    · simp at he
  · simp only [List.mem_map] at he
    obtain ⟨ch, _, rfl⟩ := he
    rcases ch with str | str
    · trivial
    · simp only [terraformChunkEvent]
      split <;> trivial

theorem stateSpec_trans {ids : List String} {d0 d1 d2 : Deployment}
    {t1 t2 : List Event} (h1 : StateSpec ids d0 (d1, t1))
    (h2 : StateSpec ids d1 (d2, t2)) :
    StateSpec ids d0 (d2, t1 ++ t2) := by
  obtain ⟨hev1, hlog1, hstat1, hcfg1, hsteps1, hfind1⟩ := h1
  obtain ⟨hev2, hlog2, hstat2, hcfg2, hsteps2, hfind2⟩ := h2
  refine ⟨?_, ?_, ?_, hcfg2.trans hcfg1, ?_, ?_⟩
  · intro e he
    rcases List.mem_append.1 he with he | he
    · exact hev1 e he
    · exact hev2 e he
  · intro le hle
    rcases hlog2 le hle with h' | h'
    · rcases hlog1 le h' with h'' | h''
      · exact Or.inl h''
      · exact Or.inr (List.mem_append_left _ h'')
    · exact Or.inr (List.mem_append_right _ h')
  · rcases hstat2 with h' | h'
    · rw [h']
      exact hstat1
    · exact Or.inr h'
  · intro x hx
    rcases hsteps2 x hx with h' | h'
    · exact hsteps1 x h'
    · exact Or.inr h'
  · intro sid hsid
    exact (hfind2 sid hsid).trans (hfind1 sid hsid)


theorem phaseSpec_pOk {ids : List String} {d0 : Deployment} {s : PState}
    (h : StateSpec ids d0 s) : PhaseSpec ids d0 (pOk s) := h

theorem phaseSpec_pThrow {ids : List String} {d0 : Deployment} {s : PState}
    {msg : String} (h : StateSpec ids d0 s) :
    PhaseSpec ids d0 (pThrow s msg) := h

section PhaseSpecLemmas

attribute [local irreducible] pUpd pLog pEvs pMod pOk pThrow gitChunkLogs

set_option maxHeartbeats 1600000
set_option maxRecDepth 4096

theorem clonePhase_spec (o : Oracle) (d : Deployment) :
    PhaseSpec ["clone"] d (clonePhase o d) := by
  rcases hc : d.config.repository.ecrImageUri with _ | uri <;>
    simp only [clonePhase, hc]
  · rcases ht : d.config.repository.accessToken with _ | tok <;>
      simp only [ht] <;>
  repeat (first
    | refine stateSpec_log ?_
    | refine stateSpec_upd ?_ (by simp) (by first | exact Or.inl rfl | exact Or.inr rfl)
    | refine stateSpec_mod ?_ (by simp)
    | refine stateSpec_evs ?_ (by first | exact tfStreamEvents_ok _ _ _ _ | simp [phaseEventOk])
    | refine stateSpec_git _ ?_
    | refine phaseSpec_pOk ?_
    | refine phaseSpec_pThrow ?_
    | exact stateSpec_init _ _
    | split)
  · repeat (first
    | refine stateSpec_log ?_
    | refine stateSpec_upd ?_ (by simp) (by first | exact Or.inl rfl | exact Or.inr rfl)
    | refine stateSpec_mod ?_ (by simp)
    | refine stateSpec_evs ?_ (by first | exact tfStreamEvents_ok _ _ _ _ | simp [phaseEventOk])
    | refine stateSpec_git _ ?_
    | refine phaseSpec_pOk ?_
    | refine phaseSpec_pThrow ?_
    | exact stateSpec_init _ _
    | split)

theorem buildPushPhase_spec (o : Oracle) (d : Deployment) :
    PhaseSpec ["build", "ecr-setup", "push"] d (buildPushPhase o d) := by
  rcases hc : d.config.repository.ecrImageUri with _ | uri <;>
    simp only [buildPushPhase, hc] <;>
  repeat (first
    | refine stateSpec_log ?_
    | refine stateSpec_upd ?_ (by simp) (by first | exact Or.inl rfl | exact Or.inr rfl)
    | refine stateSpec_mod ?_ (by simp)
    | refine stateSpec_evs ?_ (by first | exact tfStreamEvents_ok _ _ _ _ | simp [phaseEventOk])
    | refine stateSpec_git _ ?_
    | refine phaseSpec_pOk ?_
    | refine phaseSpec_pThrow ?_
    | exact stateSpec_init _ _
    | split)

theorem tfInitPhase_spec (o : Oracle) (d : Deployment) :
    PhaseSpec ["terraform-init"] d (tfInitPhase o d) := by
  simp only [tfInitPhase, executeTerraform]
  repeat (first
    | refine stateSpec_log ?_
    | refine stateSpec_upd ?_ (by simp) (by first | exact Or.inl rfl | exact Or.inr rfl)
    | refine stateSpec_mod ?_ (by simp)
    | refine stateSpec_evs ?_ (by first | exact tfStreamEvents_ok _ _ _ _ | simp [phaseEventOk])
    | refine stateSpec_git _ ?_
    | refine phaseSpec_pOk ?_
    | refine phaseSpec_pThrow ?_
    | exact stateSpec_init _ _
    | split)

theorem tfPlanPhase_spec (o : Oracle) (d : Deployment) :
    PhaseSpec ["terraform-plan"] d (tfPlanPhase o d) := by
  simp only [tfPlanPhase, executeTerraform]
  repeat (first
    | refine stateSpec_log ?_
    | refine stateSpec_upd ?_ (by simp) (by first | exact Or.inl rfl | exact Or.inr rfl)
    | refine stateSpec_mod ?_ (by simp)
    | refine stateSpec_evs ?_ (by first | exact tfStreamEvents_ok _ _ _ _ | simp [phaseEventOk])
    | refine stateSpec_git _ ?_
    | refine phaseSpec_pOk ?_
    | refine phaseSpec_pThrow ?_
    | exact stateSpec_init _ _
    | split)

theorem applyPhase_spec (o : Oracle) (d : Deployment) :
    PhaseSpec ["terraform-apply"] d (applyPhase o d) := by
  simp only [applyPhase, executeTerraform]
  repeat (first
    | refine stateSpec_log ?_
    | refine stateSpec_upd ?_ (by simp) (by first | exact Or.inl rfl | exact Or.inr rfl)
    | refine stateSpec_mod ?_ (by simp)
    | refine stateSpec_evs ?_ (by first | exact tfStreamEvents_ok _ _ _ _ | simp [phaseEventOk])
    | refine stateSpec_git _ ?_
    | refine phaseSpec_pOk ?_
    | refine phaseSpec_pThrow ?_
    | exact stateSpec_init _ _
    | split)

theorem finishPhase_spec (d : Deployment) :
    PhaseSpec ["kubectl-config", "deploy-app", "verify"] d (finishPhase d) := by
  simp only [finishPhase]
  repeat (first
    | refine stateSpec_log ?_
    | refine stateSpec_upd ?_ (by simp) (by first | exact Or.inl rfl | exact Or.inr rfl)
    | refine stateSpec_mod ?_ (by simp)
    | refine stateSpec_evs ?_ (by first | exact tfStreamEvents_ok _ _ _ _ | simp [phaseEventOk])
    | refine stateSpec_git _ ?_
    | refine phaseSpec_pOk ?_
    | refine phaseSpec_pThrow ?_
    | exact stateSpec_init _ _
    | split)

theorem finishPhase_spec_destroy (d : Deployment)
    (hd : d.config.destroy_mode = true) :
    PhaseSpec [] d (finishPhase d) := by
  simp only [finishPhase, hd, if_true]
  repeat (first
    | refine stateSpec_log ?_
    | refine stateSpec_upd ?_ (by simp) (by first | exact Or.inl rfl | exact Or.inr rfl)
    | refine stateSpec_mod ?_ (by simp)
    | refine stateSpec_evs ?_ (by first | exact tfStreamEvents_ok _ _ _ _ | simp [phaseEventOk])
    | refine stateSpec_git _ ?_
    | refine phaseSpec_pOk ?_
    | refine phaseSpec_pThrow ?_
    | exact stateSpec_init _ _
    | split)

end PhaseSpecLemmas

theorem stateSpec_mono {ids ids' : List String} {d0 : Deployment} {s : PState}
    (hsub : ∀ x ∈ ids, x ∈ ids') (h : StateSpec ids d0 s) :
    StateSpec ids' d0 s := by
  obtain ⟨hev, hlog, hstat, hcfg, hsteps, hfind⟩ := h
  refine ⟨fun e he => phaseEventOk_mono hsub (hev e he), hlog, hstat, hcfg,
    hsteps, fun sid hsid => hfind sid (fun hc => hsid (hsub sid hc))⟩

theorem runPhases_spec (ids : List String) (P : DeployConfig → Prop)
    (fs : List (Deployment → PhaseRes))
    (hfs : ∀ f ∈ fs, ∀ d, P d.config → PhaseSpec ids d (f d)) :
    ∀ d0 : Deployment, P d0.config → PhaseSpec ids d0 (runPhases fs d0) := by
  induction fs with
  | nil => intro d0 _; exact stateSpec_init _ _
  | cons f fs ih =>
      intro d0 hP
      have hf := hfs f (List.mem_cons_self _ _) d0 hP
      simp only [runPhases]
      rcases he : (f d0).err with _ | e
      · have hcfg : (f d0).d.config = d0.config := hf.2.2.2.1
        have h2 := ih (fun g hg => hfs g (List.mem_cons_of_mem _ hg))
          (f d0).d (hcfg ▸ hP)
        exact stateSpec_trans hf h2
      · exact hf

theorem runPhases_all_spec (o : Oracle) (d0 : Deployment) :
    PhaseSpec allStepIds d0 (runPhases (phases o) d0) := by
  refine runPhases_spec allStepIds (fun _ => True) (phases o) ?_ d0 trivial
  intro f hf d _
  simp only [phases, List.mem_cons, List.not_mem_nil, or_false] at hf
  rcases hf with rfl | rfl | rfl | rfl | rfl | rfl
  · exact stateSpec_mono (by decide) (clonePhase_spec o d)
  · exact stateSpec_mono (by decide) (buildPushPhase_spec o d)
  · exact stateSpec_mono (by decide) (tfInitPhase_spec o d)
  · exact stateSpec_mono (by decide) (tfPlanPhase_spec o d)
  · exact stateSpec_mono (by decide) (applyPhase_spec o d)
  · exact stateSpec_mono (by decide) (finishPhase_spec d)

theorem runPhases_destroy_spec (o : Oracle) (d0 : Deployment)
    (hd : d0.config.destroy_mode = true) :
    PhaseSpec destroyStepIds d0 (runPhases (phases o) d0) := by
  refine runPhases_spec destroyStepIds (fun c => c.destroy_mode = true)
    (phases o) ?_ d0 hd
  intro f hf d hdd
  simp only [phases, List.mem_cons, List.not_mem_nil, or_false] at hf
  rcases hf with rfl | rfl | rfl | rfl | rfl | rfl
  · exact stateSpec_mono (by decide) (clonePhase_spec o d)
  · exact stateSpec_mono (by decide) (buildPushPhase_spec o d)
  · exact stateSpec_mono (by decide) (tfInitPhase_spec o d)
  · exact stateSpec_mono (by decide) (tfPlanPhase_spec o d)
  · exact stateSpec_mono (by decide) (applyPhase_spec o d)
  · exact stateSpec_mono (by decide) (finishPhase_spec_destroy d hdd)

theorem finishPhase_err (d : Deployment) :
    (finishPhase d).err = none ∧ (finishPhase d).d.status = "completed" := by
  simp only [finishPhase]
  split <;> simp [pOk, pEvs, pLog, pMod, pUpd, addLogD, updateStepD]

theorem runPhases_ok_run_last (fs : List (Deployment → PhaseRes))
    (f : Deployment → PhaseRes) (d0 : Deployment)
    (h : (runPhases (fs ++ [f]) d0).err = none) :
    ∃ d1, (runPhases (fs ++ [f]) d0).d = (f d1).d ∧ (f d1).err = none := by
  induction fs generalizing d0 with
  | nil =>
      simp only [List.nil_append, runPhases] at h ⊢
      rcases he : (f d0).err with _ | e
      · exact ⟨d0, by simp [he], he⟩
      · simp [he] at h
  | cons g gs ih =>
      simp only [List.cons_append, runPhases] at h ⊢
      rcases he : (g d0).err with _ | e
      · simp only [he] at h ⊢
        exact ih (g d0).d h
      · simp [he] at h

theorem runPhases_ok_status (o : Oracle) (d0 : Deployment)
    (h : (runPhases (phases o) d0).err = none) :
    (runPhases (phases o) d0).d.status = "completed" := by
  have hsplit : phases o =
      [clonePhase o, buildPushPhase o, tfInitPhase o, tfPlanPhase o,
       applyPhase o] ++ [finishPhase] := rfl
  rw [hsplit] at h ⊢
  obtain ⟨d1, hd, _⟩ := runPhases_ok_run_last _ _ _ h
  rw [hd]
  exact (finishPhase_err d1).2


theorem startRun_d_steps (o : Oracle) (d : Deployment) :
    (startRun o d).1.steps =
      (runPhases (phases o) { d with status := "running" }).d.steps := by
  simp only [startRun, processDeployment]
  rcases herr : (runPhases (phases o) { d with status := "running" }).err
    with _ | e <;> simp [herr, addLogD]

theorem startRun_status_of_err (o : Oracle) (d : Deployment) (msg : String)
    (h : (runPhases (phases o) { d with status := "running" }).err = some msg) :
    (startRun o d).1.status = "failed" ∧ (startRun o d).1.error = some msg := by
  simp [startRun, processDeployment, h, addLogD]

theorem noStepUpdateFor_of_phaseEventOk {ids bad : List String} {e : Event}
    (hdisj : ∀ x ∈ ids, x ∉ bad) (h : phaseEventOk ids e) :
    noStepUpdateFor bad e := by
  rcases e with ⟨sid, st, m⟩ | _ | _ | _ | _ | _ <;>
    simp [noStepUpdateFor, phaseEventOk] at h ⊢
  exact hdisj _ h.1

theorem startRun_trace_cases (o : Oracle) (d : Deployment) :
    ∀ e ∈ (startRun o d).2,
      e ∈ (runPhases (phases o) { d with status := "running" }).t ∨
        (∀ bad, noStepUpdateFor bad e) := by
  simp only [startRun, processDeployment]
  rcases herr : (runPhases (phases o) { d with status := "running" }).err
    with _ | msg <;> simp only [herr, addLogD]
  · intro e he
    exact Or.inl he
  · intro e he
    simp only [List.mem_append, List.mem_cons, List.mem_singleton,
      List.not_mem_nil, or_false] at he
    rcases he with (he | rfl | rfl) | rfl
    · exact Or.inl he
    · exact Or.inr (fun bad => trivial)
    · exact Or.inr (fun bad => trivial)
    · exact Or.inr (fun bad => trivial)

theorem gitChunkLogs_d (cs : List Chunk) (s : PState) :
    (gitChunkLogs cs s).1.steps = s.1.steps ∧
    (gitChunkLogs cs s).1.status = s.1.status := by
  induction cs generalizing s with
  | nil => exact ⟨rfl, rfl⟩
  | cons c rest ih =>
      rcases c with str | str <;>
        simpa [gitChunkLogs, pLog, addLogD] using ih _

theorem runPhases_cons_ok (f : Deployment → PhaseRes)
    (fs : List (Deployment → PhaseRes)) (d0 : Deployment)
    (h : (f d0).err = none) :
    runPhases (f :: fs) d0 =
      ⟨(runPhases fs (f d0).d).d, (f d0).t ++ (runPhases fs (f d0).d).t,
       (runPhases fs (f d0).d).err⟩ := by
  simp [runPhases, h]

theorem runPhases_head_trace (f : Deployment → PhaseRes)
    (fs : List (Deployment → PhaseRes)) (d0 : Deployment) :
    ∃ x, (runPhases (f :: fs) d0).t = (f d0).t ++ x := by
  rcases h : (f d0).err with _ | e
  · exact ⟨(runPhases fs (f d0).d).t, by simp [runPhases, h]⟩
  · exact ⟨[], by simp [runPhases, h]⟩

theorem tfInitPhase_head (o : Oracle) (d : Deployment) :
    ∃ r, (tfInitPhase o d).t =
      Event.stepUpdate "terraform-init" StepStatus.running
        "Initializing Terraform..." :: r := by
  rcases ho : tfOutcome "init" o.initRes with e | r <;>
    simp [tfInitPhase, executeTerraform, ho, pOk, pThrow, pEvs, pLog, pUpd,
      updateStepD, addLogD]

theorem startRun_trace_ex (o : Oracle) (d : Deployment) :
    ∃ extra, (startRun o d).2 =
      (runPhases (phases o) { d with status := "running" }).t ++ extra := by
  rcases herr : (runPhases (phases o) { d with status := "running" }).err
    with _ | msg
  · exact ⟨[], by simp [startRun, processDeployment, herr]⟩
  · refine ⟨[Event.deploymentLog ("Deployment failed: " ++ msg) (some "error")
      none none,
      Event.realTimeLog ("Deployment failed: " ++ msg) "error" none,
      Event.deploymentFailed msg], ?_⟩
    simp [startRun, processDeployment, herr, addLogD]

/-! ## Claims -/

/-- C10: the `/ecr/create-repository` route is idempotent — when the
repository already exists the route answers `success` with
`existed = true` and the stored description, leaving the registry
untouched; hence a second call after a successful creation returns the
repository created by the first call rather than an error. -/
theorem C10_create_repository_idempotent :
    (∀ (st : EcrState) (name : String) (r : EcrRepo),
      describeRepositories st name = some r →
        createRepositoryRoute st name = (⟨true, r, true⟩, st)) ∧
    (∀ (st : EcrState) (name : String),
      createRepositoryRoute (createRepositoryRoute st name).2 name =
        (⟨true, (createRepositoryRoute st name).1.repository, true⟩,
         (createRepositoryRoute st name).2)) := by
  constructor
  · intro st name r h
    simp [createRepositoryRoute, h]
  · intro st name
    rcases h : describeRepositories st name with _ | r
    · have h' : (st.find? fun r => r.repositoryName == name) = none := h
      have h2 : describeRepositories
          (st ++ [(⟨name, "dkr.ecr.amazonaws.com/" ++ name⟩ : EcrRepo)]) name =
          some ⟨name, "dkr.ecr.amazonaws.com/" ++ name⟩ := by
        simp [describeRepositories, List.find?_append, h']
      simp [createRepositoryRoute, createRepository, h, h2]
    · simp [createRepositoryRoute, h]

/-- C10 witness: the route applied to a registry that already stores
`app` answers `existed = true` with the stored description. -/
theorem C10_create_repository_idempotent_witness :
    describeRepositories [⟨"app", "uri/app"⟩] "app" = some ⟨"app", "uri/app"⟩ ∧
    createRepositoryRoute [⟨"app", "uri/app"⟩] "app" =
      (⟨true, ⟨"app", "uri/app"⟩, true⟩, [⟨"app", "uri/app"⟩]) :=
  ⟨by decide,
   C10_create_repository_idempotent.1 [⟨"app", "uri/app"⟩] "app"
     ⟨"app", "uri/app"⟩ (by decide)⟩

/-- C8: the paginated logs route is claimed to return exactly the
entries at positions `offset … offset + limit - 1` (at most `limit`
entries). The code computes the slice end as
`offset + parseInt(limit)`; when `offset` arrives as a query string this
is JavaScript string concatenation, so for 25 stored entries and
`offset=10&limit=10` the route slices to index `Number("10" + "10") =
1010` and returns 15 entries instead of 10. With both parameters absent
the defaults behave as claimed. -/
theorem C8_pagination_failing_input :
    (logsRoute sampleLogs (some "10") (some "10")).logs = sampleLogs.drop 10 ∧
    (logsRoute sampleLogs (some "10") (some "10")).logs.length = 15 ∧
    ¬ (logsRoute sampleLogs (some "10") (some "10")).logs.length ≤ 10 ∧
    (logsRoute sampleLogs (some "10") (some "10")).total = 25 ∧
    logsRoute sampleLogs none none = ⟨sampleLogs.take 100, 25⟩ := by
  decide

/-- C9: the status snapshot's `logs` field is the suffix window
`logs.slice(-50)` — at most the last 50 entries — while the full log
sequence stays retrievable through the paginated logs route (absent
`offset`, any digit-string `limit` whose value reaches the log count
returns the complete sequence together with the total). -/
theorem C9_status_snapshot_window (logs : List LogEntry) :
    statusLogs logs = logs.drop (logs.length - 50) ∧
    (statusLogs logs).length = min 50 logs.length ∧
    logs.take (logs.length - 50) ++ statusLogs logs = logs ∧
    (∀ s : String, logs.length ≤ strToNat s →
      logsRoute logs none (some s) = ⟨logs, logs.length⟩) := by
  refine ⟨rfl, ?_, ?_, ?_⟩
  · simp [statusLogs, jsSliceLast]
    omega
  · exact List.take_append_drop _ _
  · intro s h
    simp [logsRoute, jsSlice, List.take_of_length_le h]

/-- C9 witness: on the 25-entry sample log and `limit = "99"`, the
window and full-retrieval facts instantiate. -/
theorem C9_status_snapshot_window_witness :
    sampleLogs.length ≤ strToNat "99" ∧
    logsRoute sampleLogs none (some "99") = ⟨sampleLogs, sampleLogs.length⟩ :=
  ⟨by decide, (C9_status_snapshot_window sampleLogs).2.2.2 "99" (by decide)⟩

/-- C1 counterexample: the "already exists" tolerance is *not* scoped to
`apply` — a `terraform init` exiting 1 with an "already exists" stderr
resolves successfully, where the claim requires every non-apply
subcommand exiting 1 to fail regardless of stderr. -/
theorem C1_counterexample_init_tolerated :
    (executeTerraform "init" ["-backend-config=backend.hcl"]
      ⟨[.err "bucket already exists"], 1⟩).2 =
      .ok ⟨"", "bucket already exists", 0⟩ := by
  decide

/-- C1 (amended): in `executeTerraform`'s shared close handler, exit
code 1 with an "already exists" stderr is tolerated for *every*
subcommand (resolving with code 0), and exit code 1 without that
signature rejects; at the pipeline level an apply run exiting 1 with an
"already exists" stderr ends the `terraform-apply` stage `completed` and
the workflow `completed`, while an apply run exiting 1 with an unrelated
stderr ends the workflow `failed` (the stage never reaching
`completed`). -/
theorem C1_already_exists_tolerance :
    (∀ (cmd : String) (args : List String) (p : ProcResult),
      p.exitCode = 1 → strIncludes (stderrAll p) "already exists" = true →
        (executeTerraform cmd args p).2 = .ok ⟨stdoutAll p, stderrAll p, 0⟩) ∧
    (∀ (cmd : String) (args : List String) (p : ProcResult),
      p.exitCode = 1 → strIncludes (stderrAll p) "already exists" = false →
        (executeTerraform cmd args p).2 =
          .error ("Terraform " ++ cmd ++ " failed with exit code " ++
            toString p.exitCode ++ ": " ++ stderrAll p)) ∧
    (startRun oracleApplyExists (mkDeployment cfgPrebuilt)).1.status =
      "completed" ∧
    stepStatusOf (startRun oracleApplyExists (mkDeployment cfgPrebuilt)).1
      "terraform-apply" = some .completed ∧
    (startRun oracleApplyBad (mkDeployment cfgPrebuilt)).1.status = "failed" ∧
    stepStatusOf (startRun oracleApplyBad (mkDeployment cfgPrebuilt)).1
      "terraform-apply" = some .running := by
  refine ⟨?_, ?_, by decide, by decide, by decide, by decide⟩
  · intro cmd args p h1 h2
    simp [executeTerraform, tfOutcome, h1, h2]
  · intro cmd args p h1 h2
    simp [executeTerraform, tfOutcome, h1, h2]

/-- C1 witness: the tolerance and rejection branches instantiated on
concrete processes. -/
theorem C1_already_exists_tolerance_witness :
    (⟨[.err "role already exists"], 1⟩ : ProcResult).exitCode = 1 ∧
    strIncludes (stderrAll ⟨[.err "role already exists"], 1⟩)
      "already exists" = true ∧
    (executeTerraform "plan" [] ⟨[.err "role already exists"], 1⟩).2 =
      .ok ⟨"", "role already exists", 0⟩ ∧
    strIncludes (stderrAll ⟨[.err "access denied"], 1⟩) "already exists" =
      false ∧
    (executeTerraform "plan" [] ⟨[.err "access denied"], 1⟩).2 =
      .error ("Terraform plan failed with exit code 1: access denied") :=
  ⟨rfl, by decide,
   C1_already_exists_tolerance.1 "plan" [] ⟨[.err "role already exists"], 1⟩
     rfl (by decide),
   by decide,
   C1_already_exists_tolerance.2.1 "plan" [] ⟨[.err "access denied"], 1⟩
     rfl (by decide)⟩


/-- C2 counterexample: in the prebuilt-image scenario every one of the
stages `clone`, `build`, `ecr-setup`, `push` ends `completed` — none
ends in the distinct `skipped` state the claim requires. -/
theorem C2_counterexample_completed_not_skipped :
    (startRun oracleOk (mkDeployment cfgPrebuilt)).1.steps.map
      (fun s => (s.id, s.status)) =
      [("clone", .completed), ("build", .completed), ("ecr-setup", .completed),
       ("push", .completed), ("terraform-init", .completed),
       ("terraform-plan", .completed), ("terraform-apply", .completed),
       ("kubectl-config", .completed), ("deploy-app", .completed),
       ("verify", .completed)] ∧
    StepStatus.completed ≠ StepStatus.skipped := by
  decide

/-- C2 (amended): with a prebuilt artifact reference the stages `clone`,
`build`, `ecr-setup` and `push` all end `completed` (carrying messages
that describe the skip), not in a distinct `skipped` state, and the
event stream proceeds directly from those four stages to the
`terraform-init` stage's `running` update. -/
theorem C2_prebuilt_stages_completed (o : Oracle) (cfg : DeployConfig)
    (uri : String) (hc : cfg.repository.ecrImageUri = some uri) :
    (stepStatusOf (startRun o (mkDeployment cfg)).1 "clone" =
        some StepStatus.completed ∧
      stepStatusOf (startRun o (mkDeployment cfg)).1 "build" =
        some StepStatus.completed ∧
      stepStatusOf (startRun o (mkDeployment cfg)).1 "ecr-setup" =
        some StepStatus.completed ∧
      stepStatusOf (startRun o (mkDeployment cfg)).1 "push" =
        some StepStatus.completed) ∧
    ∃ rest, (startRun o (mkDeployment cfg)).2 = prebuiltPrefix uri ++ rest := by
  have herr1 : (clonePhase o
      { status := "running", steps := initialSteps, config := cfg,
        logs := ([] : List LogEntry) }).err = none := by
    simp [clonePhase, hc, pOk, pUpd, pLog, updateStepD, addLogD]
  have hd1 : (clonePhase o
      { status := "running", steps := initialSteps, config := cfg,
        logs := ([] : List LogEntry) }).d =
      { status := "running",
        steps := updateSteps initialSteps "clone" StepStatus.completed
          "Skipping clone - using pre-built image",
        config := cfg,
        logs := [⟨"Using pre-built ECR image: " ++ uri, "success",
            some "clone"⟩,
          ⟨"Repository clone skipped - image already built and pushed",
            "info", some "clone"⟩] } := by
    simp [clonePhase, hc, pOk, pUpd, pLog, updateStepD, addLogD]
  have ht1 : (clonePhase o
      { status := "running", steps := initialSteps, config := cfg,
        logs := ([] : List LogEntry) }).t =
      [.stepUpdate "clone" .completed "Skipping clone - using pre-built image",
       .deploymentLog ("Using pre-built ECR image: " ++ uri) (some "success")
         (some "clone") none,
       .realTimeLog ("Using pre-built ECR image: " ++ uri) "success"
         (some "clone"),
       .deploymentLog "Repository clone skipped - image already built and pushed"
         (some "info") (some "clone") none,
       .realTimeLog "Repository clone skipped - image already built and pushed"
         "info" (some "clone")] := by
    simp [clonePhase, hc, pOk, pUpd, pLog, updateStepD, addLogD]
  have herr2 : (buildPushPhase o (clonePhase o
      { status := "running", steps := initialSteps, config := cfg,
        logs := ([] : List LogEntry) }).d).err = none := by
    rw [hd1]
    simp [buildPushPhase, hc, pOk, pUpd, pLog, pMod, updateStepD, addLogD]
  have hd2 : (buildPushPhase o (clonePhase o
      { status := "running", steps := initialSteps, config := cfg,
        logs := ([] : List LogEntry) }).d).d.steps =
      updateSteps (updateSteps (updateSteps (updateSteps initialSteps "clone"
        StepStatus.completed "Skipping clone - using pre-built image") "build"
        StepStatus.completed "Using pre-built Docker image") "ecr-setup"
        StepStatus.completed "Using existing ECR repository") "push"
        StepStatus.completed "Using pre-pushed ECR image" := by
    rw [hd1]
    simp [buildPushPhase, hc, pOk, pUpd, pLog, pMod, updateStepD, addLogD]
  have ht2 : (buildPushPhase o (clonePhase o
      { status := "running", steps := initialSteps, config := cfg,
        logs := ([] : List LogEntry) }).d).t =
      [.stepUpdate "build" .completed "Using pre-built Docker image",
       .stepUpdate "ecr-setup" .completed "Using existing ECR repository",
       .stepUpdate "push" .completed "Using pre-pushed ECR image",
       .deploymentLog ("Using pre-built ECR image: " ++ uri) (some "info")
         none none,
       .realTimeLog ("Using pre-built ECR image: " ++ uri) "info" none,
       .deploymentLog "Skipping Docker build and ECR push - image already available"
         (some "info") none none,
       .realTimeLog "Skipping Docker build and ECR push - image already available"
         "info" none] := by
    rw [hd1]
    simp [buildPushPhase, hc, pOk, pUpd, pLog, pMod, updateStepD, addLogD]
  have hphases : phases o = clonePhase o :: buildPushPhase o ::
      [tfInitPhase o, tfPlanPhase o, applyPhase o, finishPhase] := rfl
  have hspec4 : PhaseSpec ["terraform-init", "terraform-plan",
      "terraform-apply", "kubectl-config", "deploy-app", "verify"]
      (buildPushPhase o (clonePhase o
        { status := "running", steps := initialSteps, config := cfg,
          logs := ([] : List LogEntry) }).d).d
      (runPhases [tfInitPhase o, tfPlanPhase o, applyPhase o, finishPhase]
        (buildPushPhase o (clonePhase o
          { status := "running", steps := initialSteps, config := cfg,
            logs := ([] : List LogEntry) }).d).d) := by
    refine runPhases_spec _ (fun _ => True) _ ?_ _ trivial
    intro f hf d _
    simp only [List.mem_cons, List.not_mem_nil, or_false] at hf
    rcases hf with rfl | rfl | rfl | rfl
    · exact stateSpec_mono (by decide) (tfInitPhase_spec o d)
    · exact stateSpec_mono (by decide) (tfPlanPhase_spec o d)
    · exact stateSpec_mono (by decide) (applyPhase_spec o d)
    · exact stateSpec_mono (by decide) (finishPhase_spec d)
  constructor
  · have hs := startRun_d_steps o (mkDeployment cfg)
    rw [show ({ mkDeployment cfg with status := "running" } : Deployment) =
      { status := "running", steps := initialSteps, config := cfg,
        logs := ([] : List LogEntry) } from rfl, hphases,
      runPhases_cons_ok _ _ _ herr1, runPhases_cons_ok _ _ _ herr2] at hs
    have hfind := hspec4.2.2.2.2.2
    refine ⟨?_, ?_, ?_, ?_⟩ <;>
      · rw [stepStatusOf, hs, hfind _ (by decide)]
        rw [show (buildPushPhase o (clonePhase o
          { status := "running", steps := initialSteps, config := cfg,
            logs := ([] : List LogEntry) }).d).d.steps = _ from hd2]
        decide
  · obtain ⟨extra, hex⟩ := startRun_trace_ex o (mkDeployment cfg)
    rw [show ({ mkDeployment cfg with status := "running" } : Deployment) =
      { status := "running", steps := initialSteps, config := cfg,
        logs := ([] : List LogEntry) } from rfl, hphases,
      runPhases_cons_ok _ _ _ herr1, runPhases_cons_ok _ _ _ herr2] at hex
    obtain ⟨x4, hx4⟩ := runPhases_head_trace (tfInitPhase o)
      [tfPlanPhase o, applyPhase o, finishPhase]
      (buildPushPhase o (clonePhase o
        { status := "running", steps := initialSteps, config := cfg,
          logs := ([] : List LogEntry) }).d).d
    obtain ⟨r3, hr3⟩ := tfInitPhase_head o
      (buildPushPhase o (clonePhase o
        { status := "running", steps := initialSteps, config := cfg,
          logs := ([] : List LogEntry) }).d).d
    refine ⟨r3 ++ x4 ++ extra, ?_⟩
    rw [hex, ht1, ht2, hx4, hr3]
    simp [prebuiltPrefix]

/-- C2 witness: the amended statement instantiated on the concrete
prebuilt scenario. -/
theorem C2_prebuilt_stages_completed_witness :
    cfgPrebuilt.repository.ecrImageUri =
      some "123.dkr.ecr.us-east-1.amazonaws.com/app:latest" ∧
    ((stepStatusOf (startRun oracleOk (mkDeployment cfgPrebuilt)).1 "clone" =
        some StepStatus.completed ∧
      stepStatusOf (startRun oracleOk (mkDeployment cfgPrebuilt)).1 "build" =
        some StepStatus.completed ∧
      stepStatusOf (startRun oracleOk (mkDeployment cfgPrebuilt)).1
        "ecr-setup" = some StepStatus.completed ∧
      stepStatusOf (startRun oracleOk (mkDeployment cfgPrebuilt)).1 "push" =
        some StepStatus.completed) ∧
    ∃ rest, (startRun oracleOk (mkDeployment cfgPrebuilt)).2 =
      prebuiltPrefix "123.dkr.ecr.us-east-1.amazonaws.com/app:latest" ++ rest) :=
  ⟨rfl, C2_prebuilt_stages_completed oracleOk cfgPrebuilt
    "123.dkr.ecr.us-east-1.amazonaws.com/app:latest" rfl⟩

/-- C3 counterexample: a cancel served mid-pipeline (after the third
block) marks the workflow `cancelled` and emits the cancellation event,
yet afterwards a `step-update`, further `log` events and a
`deployment-completed` event are still published, and the run even ends
with status `completed`. -/
theorem C3_counterexample_events_after_cancel :
    cancelRun3.2[27]? = some Event.deploymentCancelled ∧
    cancelRun3.2[28]? = some (.stepUpdate "terraform-plan" .running
      "Planning infrastructure...") ∧
    Event.deploymentCompleted (some "https://app.example.com") false ∈
      cancelRun3.2.drop 28 ∧
    (.deploymentLog "Terraform plan completed successfully" (some "info")
      none none) ∈ cancelRun3.2.drop 28 ∧
    cancelRun3.1.status = "completed" := by
  decide

set_option maxRecDepth 16384 in
set_option maxHeartbeats 2000000 in
/-- C3 (amended): the pipeline never consults the workflow status, so a
cancel served between pipeline blocks merely inserts the cancellation
event into the stream: the remaining blocks run unchanged, every later
stage transition and log event is still published, and the final record
equals that of the uncancelled run (ending `completed`, overwriting
`cancelled`). Only when the pipeline itself finishes do events stop. -/
theorem C3_terminal_not_enforced_on_cancel :
    (∀ k, k < 6 →
      startRunWithCancel oracleOk k (mkDeployment cfgPrebuilt) =
        (normalPrebuiltRun.1,
         normalPrebuiltRun.2.take (cancelCutLen k) ++
           Event.deploymentCancelled ::
             normalPrebuiltRun.2.drop (cancelCutLen k))) ∧
    normalPrebuiltRun.1.status = "completed" := by
  decide

/-- C3 witness: the amended statement instantiated at a cancel after the
third pipeline block. -/
theorem C3_terminal_not_enforced_on_cancel_witness :
    3 < 6 ∧
    startRunWithCancel oracleOk 3 (mkDeployment cfgPrebuilt) =
      (normalPrebuiltRun.1,
       normalPrebuiltRun.2.take (cancelCutLen 3) ++
         Event.deploymentCancelled ::
           normalPrebuiltRun.2.drop (cancelCutLen 3)) :=
  ⟨by decide, C3_terminal_not_enforced_on_cancel.1 3 (by decide)⟩

/-- C4 counterexample: when the `terraform plan` executor fails, the
`terraform-plan` stage is left with status `running` — it is never
transitioned to `failed` as the claim requires (while the workflow
status does become `failed`). -/
theorem C4_counterexample_stage_not_failed :
    stepStatusOf (startRun oraclePlanFail (mkDeployment cfgPrebuilt)).1
      "terraform-plan" = some StepStatus.running ∧
    (∀ s ∈ (startRun oraclePlanFail (mkDeployment cfgPrebuilt)).1.steps,
      s.status ≠ StepStatus.failed) ∧
    (startRun oraclePlanFail (mkDeployment cfgPrebuilt)).1.status =
      "failed" := by
  decide

/-- C4 (amended): when a stage executor fails the workflow is marked
`failed` with the error recorded, a `Deployment failed:` error log line
is appended, `deployment-failed` is emitted, and no later stage runs —
but the failing stage itself is never transitioned to `failed` (the code
never writes the `failed` stage status; the stage is left `running`). -/
theorem C4_stage_failure_semantics :
    (∀ (o : Oracle) (d : Deployment),
      (∀ s ∈ d.steps, s.status ≠ StepStatus.failed) →
        ∀ s ∈ (startRun o d).1.steps, s.status ≠ StepStatus.failed) ∧
    (∀ (o : Oracle) (d : Deployment), (startRun o d).1.status = "failed" →
      ∃ msg, (startRun o d).1.error = some msg ∧
        Event.deploymentFailed msg ∈ (startRun o d).2 ∧
        (⟨"Deployment failed: " ++ msg, "error", none⟩ : LogEntry) ∈
          (startRun o d).1.logs) ∧
    (∀ o : Oracle, (o.gitRes.exitCode == 0) = false →
      (startRun o (mkDeployment cfgGit)).1.status = "failed" ∧
      stepStatusOf (startRun o (mkDeployment cfgGit)).1 "clone" =
        some StepStatus.running ∧
      ∀ sid ∈ ["build", "ecr-setup", "push", "terraform-init",
        "terraform-plan", "terraform-apply", "kubectl-config", "deploy-app",
        "verify"],
        stepStatusOf (startRun o (mkDeployment cfgGit)).1 sid =
          some StepStatus.pending) := by
  refine ⟨?_, ?_, ?_⟩
  · intro o d hd0 s hs
    rw [startRun_d_steps] at hs
    rcases (runPhases_all_spec o { d with status := "running" }).2.2.2.2.1
        s hs with h | h | h
    · exact hd0 s h
    · simp [h]
    · simp [h]
  · intro o d hfail
    rcases herr : (runPhases (phases o) { d with status := "running" }).err
      with _ | msg
    · have hc := runPhases_ok_status o { d with status := "running" } herr
      have hcompleted : (startRun o d).1.status = "completed" := by
        simp [startRun, processDeployment, herr, hc]
      rw [hfail] at hcompleted
      exact absurd hcompleted (by decide)
    · refine ⟨msg, ?_, ?_, ?_⟩ <;>
        simp [startRun, processDeployment, herr, addLogD]
  · intro o h
    have hd0 : ({ mkDeployment cfgGit with status := "running" } :
        Deployment) =
        { status := "running", steps := initialSteps, config := cfgGit,
          logs := [] } := rfl
    rcases herr : (clonePhase o { mkDeployment cfgGit with
        status := "running" }).err with _ | msg
    · exfalso
      rw [hd0] at herr
      simp [clonePhase, cfgGit, pThrow, pOk, pUpd, pLog, pMod, updateStepD,
        addLogD, h] at herr
    · have hrp : runPhases (phases o)
          { mkDeployment cfgGit with status := "running" } =
          ⟨(clonePhase o { mkDeployment cfgGit with status := "running" }).d,
           (clonePhase o { mkDeployment cfgGit with status := "running" }).t,
           some msg⟩ := by
        simp [phases, runPhases, herr]
      have hsteps : (startRun o (mkDeployment cfgGit)).1.steps =
          updateSteps initialSteps "clone" StepStatus.running
            "Cloning repository..." := by
        rw [startRun_d_steps, hrp]
        rw [hd0]
        simp [clonePhase, cfgGit, pThrow, pOk, pUpd, pLog, pMod, updateStepD,
          addLogD, h, (gitChunkLogs_d _ _).1]
      refine ⟨(startRun_status_of_err o _ msg (by rw [hrp])).1, ?_, ?_⟩
      · simp [stepStatusOf, hsteps]
        decide
      · intro sid hsid
        fin_cases hsid <;>
          · simp [stepStatusOf, hsteps]
            decide

/-- C4 witness: the amended statement instantiated on a failing
`git clone`. -/
theorem C4_stage_failure_semantics_witness :
    ((oracleCloneFail.gitRes.exitCode == 0) = false) ∧
    ((startRun oracleCloneFail (mkDeployment cfgGit)).1.status = "failed" ∧
      stepStatusOf (startRun oracleCloneFail (mkDeployment cfgGit)).1
        "clone" = some StepStatus.running ∧
      ∀ sid ∈ ["build", "ecr-setup", "push", "terraform-init",
        "terraform-plan", "terraform-apply", "kubectl-config", "deploy-app",
        "verify"],
        stepStatusOf (startRun oracleCloneFail (mkDeployment cfgGit)).1 sid =
          some StepStatus.pending) :=
  ⟨by decide, C4_stage_failure_semantics.2.2 oracleCloneFail (by decide)⟩

/-- C5 counterexample: a cancel served before `terraform-apply` does not
terminate the in-flight work — the apply still runs to completion and
its process output events are published after the cancellation event —
and the final status is not even `cancelled` (the continuing pipeline
overwrites it with `completed`). -/
theorem C5_counterexample_process_not_terminated :
    cancelRun4.2[34]? = some Event.deploymentCancelled ∧
    (.deploymentLog "Apply complete" none none (some "terraform")) ∈
      cancelRun4.2.drop 35 ∧
    cancelRun4.1.status ≠ "cancelled" := by
  decide

/-- C5 (amended): the cancel route only sets `status := 'cancelled'` and
emits the `deployment-cancelled` event — it terminates no OS process and
attempts no rollback; concretely, after a cancel served before
`terraform-apply` the apply process still runs and its stream output is
still published afterwards. -/
theorem C5_cancel_marks_and_emits_only :
    (∀ d : Deployment, cancelRoute d =
      ({ d with status := "cancelled" }, Event.deploymentCancelled)) ∧
    cancelRun4.2[34]? = some Event.deploymentCancelled ∧
    (.stepUpdate "terraform-apply" .running "Deploying infrastructure...") ∈
      cancelRun4.2.drop 35 ∧
    (.deploymentLog "Apply complete" none none (some "terraform")) ∈
      cancelRun4.2.drop 35 ∧
    cancelRun4.1.status = "completed" := by
  exact ⟨fun d => rfl, by decide, by decide, by decide, by decide⟩

/-- C6: in destroy mode the stages `kubectl-config`, `deploy-app` and
`verify` are never executed: no `step-update` event for any of them is
published during the run, and since every stage transition emits its
`step-update`, no transition to `running` or `completed` is applied to
them either. -/
theorem C6_destroy_never_runs_app_stages (o : Oracle) (d : Deployment)
    (hd : d.config.destroy_mode = true) :
    ∀ e ∈ (startRun o d).2,
      noStepUpdateFor ["kubectl-config", "deploy-app", "verify"] e := by
  intro e he
  rcases startRun_trace_cases o d e he with h | h
  · exact noStepUpdateFor_of_phaseEventOk (by decide)
      ((runPhases_destroy_spec o { d with status := "running" } hd).1 e h)
  · exact h _

/-- C6 witness: the destroy-mode prebuilt scenario. -/
theorem C6_destroy_never_runs_app_stages_witness :
    (mkDeployment cfgDestroy).config.destroy_mode = true ∧
    ∀ e ∈ (startRun oracleOk (mkDeployment cfgDestroy)).2,
      noStepUpdateFor ["kubectl-config", "deploy-app", "verify"] e :=
  ⟨rfl, C6_destroy_never_runs_app_stages oracleOk (mkDeployment cfgDestroy)
    rfl⟩

/-- C7 counterexample: the terraform stream output is broadcast to the
workflow room as a `deployment-log` event without ever being appended to
the persisted logs — broadcast and persistence diverge. -/
theorem C7_counterexample_broadcast_without_persist :
    (.deploymentLog "Apply complete" none none (some "terraform")) ∈
      normalPrebuiltRun.2 ∧
    ∀ le ∈ normalPrebuiltRun.1.logs, le.message ≠ "Apply complete" := by
  decide

/-- C7 (amended): `addLog` appends the persisted entry and publishes the
matching `deployment-log` (and `realTimeLog`) events in one step, so
every log line persisted during a run has a matching broadcast event in
the run's stream; the converse direction of the claim fails (terraform
stream output is broadcast without being persisted). -/
theorem C7_log_persist_broadcast :
    (∀ (d : Deployment) (msg lvl : String) (sid : Option String),
      addLogD d msg lvl sid =
        ({ d with logs := d.logs ++ [⟨msg, lvl, sid⟩] },
         [Event.deploymentLog msg (some lvl) sid none,
          Event.realTimeLog msg lvl sid])) ∧
    (∀ (o : Oracle) (d : Deployment), ∀ le ∈ (startRun o d).1.logs,
      le ∈ d.logs ∨
        Event.deploymentLog le.message (some le.level) le.stepId none ∈
          (startRun o d).2) := by
  refine ⟨fun d msg lvl sid => rfl, ?_⟩
  intro o d le hle
  have hspec := runPhases_all_spec o { d with status := "running" }
  rcases herr : (runPhases (phases o) { d with status := "running" }).err
    with _ | msg
  · have h1 : (startRun o d).1.logs =
        (runPhases (phases o) { d with status := "running" }).d.logs := by
      simp [startRun, processDeployment, herr]
    have h2 : (startRun o d).2 =
        (runPhases (phases o) { d with status := "running" }).t := by
      simp [startRun, processDeployment, herr]
    rw [h1] at hle
    rcases hspec.2.1 le hle with h | h
    · exact Or.inl h
    · rw [h2]
      exact Or.inr h
  · have h1 : (startRun o d).1.logs =
        (runPhases (phases o) { d with status := "running" }).d.logs ++
          [⟨"Deployment failed: " ++ msg, "error", none⟩] := by
      simp [startRun, processDeployment, herr, addLogD]
    have h2 : (startRun o d).2 =
        (runPhases (phases o) { d with status := "running" }).t ++
          [Event.deploymentLog ("Deployment failed: " ++ msg) (some "error")
            none none,
           Event.realTimeLog ("Deployment failed: " ++ msg) "error" none] ++
          [Event.deploymentFailed msg] := by
      simp [startRun, processDeployment, herr, addLogD]
    rw [h1, List.mem_append] at hle
    rcases hle with hle | hle
    · rcases hspec.2.1 le hle with h | h
      · exact Or.inl h
      · rw [h2]
        exact Or.inr (List.mem_append_left _ (List.mem_append_left _ h))
    · simp only [List.mem_singleton] at hle
      subst hle
      rw [h2]
      refine Or.inr (List.mem_append_left _ (List.mem_append_right _ ?_))
      simp

/-- C7 witness: the persisted-implies-broadcast direction instantiated
on the first log line of the prebuilt scenario. -/
theorem C7_log_persist_broadcast_witness :
    (⟨"Using pre-built ECR image: 123.dkr.ecr.us-east-1.amazonaws.com/app:latest",
      "success", some "clone"⟩ : LogEntry) ∈
      (startRun oracleOk (mkDeployment cfgPrebuilt)).1.logs ∧
    ((⟨"Using pre-built ECR image: 123.dkr.ecr.us-east-1.amazonaws.com/app:latest",
      "success", some "clone"⟩ : LogEntry) ∈ (mkDeployment cfgPrebuilt).logs ∨
      Event.deploymentLog
        "Using pre-built ECR image: 123.dkr.ecr.us-east-1.amazonaws.com/app:latest"
        (some "success") (some "clone") none ∈
        (startRun oracleOk (mkDeployment cfgPrebuilt)).2) :=
  ⟨by decide, C7_log_persist_broadcast.2 oracleOk (mkDeployment cfgPrebuilt)
    ⟨"Using pre-built ECR image: 123.dkr.ecr.us-east-1.amazonaws.com/app:latest",
      "success", some "clone"⟩ (by decide)⟩

end AwsBuilder
